import Mathlib

/-!
Shallow embedding of the ink! ERC-20 contract in `src/lib.rs`.

Modelling choices:
* `AccountId` (an opaque, equality-comparable identity in the source) is a type
  parameter `A` with decidable equality; concrete witnesses instantiate `A := Nat`.
* `Balance` (`u128` in the source) is modelled as `Nat`.  All guarded
  subtractions in the source (`balance_from - value`, `allowance - value`) are
  performed only after a `<` check, so `Nat` truncated subtraction agrees with
  the `u128` subtraction on every path the code takes.  Where unchecked
  addition overflow is itself the subject of a claim, an explicitly bounded
  variant is stated (see `increase_allowance_checked`).
* `ink::storage::Mapping` is modelled as an association list with
  replace-on-insert semantics: `get` returns the first matching entry,
  `insert` overwrites it, mirroring a key-value store.
* Each state-mutating method returns the `Result` value, the post state, and
  the list of events emitted during the call, since a Rust `&mut self` method
  both returns a value and mutates the receiver.
-/

namespace Erc20Spec

/-- Association-list model of `ink::storage::Mapping` lookup:
first entry with the given key, `none` when absent (`Mapping::get`). -/
def lookupEntry {K : Type} [DecidableEq K] : List (K × Nat) → K → Option Nat
  | [], _ => none
  | (k', v) :: rest, k => if k = k' then some v else lookupEntry rest k

/-- Association-list model of `ink::storage::Mapping` update:
replace the first entry with the given key, append when absent
(`Mapping::insert`). -/
def insertEntry {K : Type} [DecidableEq K] : List (K × Nat) → K → Nat → List (K × Nat)
  | [], k, v => [(k, v)]
  | (k', v') :: rest, k, v =>
    if k = k' then (k, v) :: rest else (k', v') :: insertEntry rest k v

/-- Model of `ink::storage::Mapping<K, Balance>`: a list of key-value entries. -/
structure Mapping (K : Type) where
  entries : List (K × Nat)
deriving DecidableEq

/-- `Mapping::get`. -/
def Mapping.get {K : Type} [DecidableEq K] (m : Mapping K) (k : K) : Option Nat :=
  lookupEntry m.entries k

/-- `Mapping::insert`. -/
def Mapping.insert {K : Type} [DecidableEq K] (m : Mapping K) (k : K) (v : Nat) : Mapping K :=
  ⟨insertEntry m.entries k v⟩

/-- `Mapping::new` / `Default::default()`: the empty mapping. -/
def Mapping.new {K : Type} : Mapping K := ⟨[]⟩

/-- Sum of all entries of the mapping (the spec's `Σ balances[*]`). -/
def Mapping.sum {K : Type} (m : Mapping K) : Nat :=
  (m.entries.map Prod.snd).sum

/-- The `Error` enum of the contract. -/
inductive Error where
  | InsufficientBalance
  | InsufficientAllowance
deriving DecidableEq

/-- The two event records the contract emits (`Transfer` and `Approval`).
`Transfer.from` / `Transfer.to` are `Option AccountId` in the source. -/
inductive Event (A : Type) where
  | Transfer (source : Option A) (dest : Option A) (value : Nat)
  | Approval (owner : A) (spender : A) (value : Nat)

/-- The `Erc20` storage struct. -/
structure Erc20 (A : Type) where
  name : String
  symbol : String
  total_supply : Nat
  balances : Mapping A
  allowances : Mapping (A × A)

/-- Result of a `&mut self` message: the returned `Result`, the post state,
and the events emitted during the call. -/
structure OpResult (A : Type) where
  result : Except Error Unit
  state : Erc20 A
  events : List (Event A)

variable {A : Type} [DecidableEq A]

/-- Constructor `new(name, symbol, total_supply)`; `caller` is
`Self::env().caller()`.  Returns the initial state and the emitted events. -/
def new (caller : A) (name symbol : String) (total_supply : Nat) :
    Erc20 A × List (Event A) :=
  let balances := Mapping.insert Mapping.new caller total_supply
  ⟨{ name := name
     symbol := symbol
     total_supply := total_supply
     balances := balances
     allowances := Mapping.new },
   [Event.Transfer none (some caller) total_supply]⟩

/-- Message `total_supply()`. -/
def total_supply (s : Erc20 A) : Nat :=
  s.total_supply

/-- Message `balance_of(owner)`: `self.balances.get(&owner).unwrap_or_default()`. -/
def balance_of (s : Erc20 A) (owner : A) : Nat :=
  (s.balances.get owner).getD 0

/-- Message `allowance(owner, spender)`:
`self.allowances.get(&(owner, spender)).unwrap_or_default()`. -/
def allowance (s : Erc20 A) (owner spender : A) : Nat :=
  (s.allowances.get (owner, spender)).getD 0

/-- Internal method `_transfer(from, to, value)` (`fr` is the source's `from`). -/
def _transfer (s : Erc20 A) (fr dst : A) (value : Nat) : OpResult A :=
  let balance_from := balance_of s fr
  let balance_to := balance_of s dst
  if value > balance_from then
    ⟨Except.error Error.InsufficientBalance, s, []⟩
  else
    ⟨Except.ok (),
     { s with balances :=
         (s.balances.insert fr (balance_from - value)).insert dst (balance_to + value) },
     [Event.Transfer (some fr) (some dst) value]⟩

/-- Message `transfer(to, value)`; `caller` is `self.env().caller()`. -/
def transfer (s : Erc20 A) (caller dst : A) (value : Nat) : OpResult A :=
  _transfer s caller dst value

/-- Message `transfer_from(from, to, value)`; `caller` is the spender. -/
def transfer_from (s : Erc20 A) (caller fr dst : A) (value : Nat) : OpResult A :=
  let spender := caller
  let allowance := (s.allowances.get (fr, spender)).getD 0
  if allowance < value then
    ⟨Except.error Error.InsufficientAllowance, s, []⟩
  else
    let s' := { s with allowances := s.allowances.insert (fr, spender) (allowance - value) }
    _transfer s' fr dst value

/-- Message `approve(spender, value)`; `caller` is the owner. -/
def approve (s : Erc20 A) (caller spender : A) (value : Nat) : OpResult A :=
  let owner := caller
  ⟨Except.ok (),
   { s with allowances := s.allowances.insert (owner, spender) value },
   [Event.Approval owner spender value]⟩

/-- Message `increase_allowance(spender, value)`; `caller` is the owner.
The source computes `allowance + value` on `u128`; here the addition is on
`Nat` (see `increase_allowance_checked` for the bounded behaviour). -/
def increase_allowance (s : Erc20 A) (caller spender : A) (value : Nat) : OpResult A :=
  let owner := caller
  let allowance := (s.allowances.get (owner, spender)).getD 0
  ⟨Except.ok (),
   { s with allowances := s.allowances.insert (owner, spender) (allowance + value) },
   []⟩

/-- Upper bound of the `Balance` type (`u128`). -/
def U128 : Nat := 2 ^ 128

/-- Modelled from the spec: the overflow behaviour of `allowance + value` in
`increase_allowance` is decided by the crate's `overflow-checks` build
setting, which is not among the given source files.  The spec requires the
sum to be rejected when it is not representable in `Balance` ("treat as
fatal/rejected, not silently wrapped"), so this variant returns `none`
(call rejected, no state change observable) when the sum is `≥ 2^128` and
otherwise behaves as the unchecked method. -/
def increase_allowance_checked (s : Erc20 A) (caller spender : A) (value : Nat) :
    Option (OpResult A) :=
  let allowance := (s.allowances.get (caller, spender)).getD 0
  if allowance + value < U128 then
    some (increase_allowance s caller spender value)
  else
    none

/-- Message `decrease_allowance(spender, value)`; `caller` is the owner. -/
def decrease_allowance (s : Erc20 A) (caller spender : A) (value : Nat) : OpResult A :=
  let owner := caller
  let allowance := (s.allowances.get (owner, spender)).getD 0
  if allowance < value then
    ⟨Except.error Error.InsufficientAllowance, s, []⟩
  else
    ⟨Except.ok (),
     { s with allowances := s.allowances.insert (owner, spender) (allowance - value) },
     []⟩

/-- Internal method `_mint(to, value)`. -/
def _mint (s : Erc20 A) (dst : A) (value : Nat) : OpResult A :=
  let balance_to := balance_of s dst
  ⟨Except.ok (),
   { s with balances := s.balances.insert dst (balance_to + value)
            total_supply := s.total_supply + value },
   [Event.Transfer none (some dst) value]⟩

/-- Internal method `_burn(from, value)` (`fr` is the source's `from`). -/
def _burn (s : Erc20 A) (fr : A) (value : Nat) : OpResult A :=
  let balance_from := balance_of s fr
  if value > balance_from then
    ⟨Except.error Error.InsufficientBalance, s, []⟩
  else
    ⟨Except.ok (),
     { s with balances := s.balances.insert fr (balance_from - value),
              total_supply := s.total_supply - value },
     [Event.Transfer (some fr) none value]⟩

/-! ### Lemmas about the `Mapping` model -/

theorem lookupEntry_insertEntry_self {K : Type} [DecidableEq K]
    (l : List (K × Nat)) (k : K) (v : Nat) :
    lookupEntry (insertEntry l k v) k = some v := by
  induction l with
  | nil => simp [insertEntry, lookupEntry]
  | cons hd tl ih =>
    obtain ⟨a, b⟩ := hd
    by_cases hk : k = a
    · simp [insertEntry, lookupEntry, hk]
    · simp [insertEntry, lookupEntry, hk, ih]

theorem lookupEntry_insertEntry_ne {K : Type} [DecidableEq K]
    (l : List (K × Nat)) (k k' : K) (v : Nat) (h : k' ≠ k) :
    lookupEntry (insertEntry l k v) k' = lookupEntry l k' := by
  induction l with
  | nil => simp [insertEntry, lookupEntry, h]
  | cons hd tl ih =>
    obtain ⟨a, b⟩ := hd
    by_cases hk : k = a
    · subst hk
      simp [insertEntry, lookupEntry, h]
    · simp [insertEntry, lookupEntry, hk, ih]

theorem lookupEntry_getD_le_sum {K : Type} [DecidableEq K]
    (l : List (K × Nat)) (k : K) :
    (lookupEntry l k).getD 0 ≤ (l.map Prod.snd).sum := by
  induction l with
  | nil => simp [lookupEntry]
  | cons hd tl ih =>
    obtain ⟨a, b⟩ := hd
    by_cases hk : k = a
    · simp [lookupEntry, hk]
    · simp only [lookupEntry, hk, if_false, List.map_cons, List.sum_cons]
      omega

theorem sum_insertEntry {K : Type} [DecidableEq K]
    (l : List (K × Nat)) (k : K) (v : Nat) :
    ((insertEntry l k v).map Prod.snd).sum + (lookupEntry l k).getD 0
      = (l.map Prod.snd).sum + v := by
  induction l with
  | nil => simp [insertEntry, lookupEntry]
  | cons hd tl ih =>
    obtain ⟨a, b⟩ := hd
    by_cases hk : k = a
    · simp only [insertEntry, lookupEntry, hk, if_true, List.map_cons, List.sum_cons,
        Option.getD_some]
      omega
    · simp only [insertEntry, lookupEntry, hk, if_false, List.map_cons, List.sum_cons]
      omega

theorem Mapping.get_insert_self {K : Type} [DecidableEq K]
    (m : Mapping K) (k : K) (v : Nat) :
    (m.insert k v).get k = some v :=
  lookupEntry_insertEntry_self m.entries k v

theorem Mapping.get_insert_ne {K : Type} [DecidableEq K]
    (m : Mapping K) (k k' : K) (v : Nat) (h : k' ≠ k) :
    (m.insert k v).get k' = m.get k' :=
  lookupEntry_insertEntry_ne m.entries k k' v h

theorem Mapping.getD_le_sum {K : Type} [DecidableEq K]
    (m : Mapping K) (k : K) :
    (m.get k).getD 0 ≤ m.sum :=
  lookupEntry_getD_le_sum m.entries k

theorem Mapping.sum_insert {K : Type} [DecidableEq K]
    (m : Mapping K) (k : K) (v : Nat) :
    (m.insert k v).sum + (m.get k).getD 0 = m.sum + v :=
  sum_insertEntry m.entries k v

/-! ### Claim theorems -/

/-- Claim C1 (conservation), evaluated at a failing input: starting from
`new` with supply 1000 credited to account 0, the self-transfer
`transfer(0, 100)` by caller 0 succeeds, yet afterwards `total_supply`
is still 1000 while the sum of all `balances` entries is 1100.  The code
therefore violates the conservation invariant the claim states: `_transfer`
reads the destination balance before debiting the source, so a self-transfer
credits the un-debited balance plus the value. -/
theorem C1_conservation_failing_input :
    (transfer ((new (0 : Nat) "" "" 1000).1) 0 0 100).result = Except.ok () ∧
    total_supply (transfer ((new (0 : Nat) "" "" 1000).1) 0 0 100).state = 1000 ∧
    Mapping.sum (transfer ((new (0 : Nat) "" "" 1000).1) 0 0 100).state.balances = 1100 :=
  ⟨rfl, rfl, rfl⟩

/-- Claim C2 (atomicity on error), evaluated at a failing input: in the state
reached by `new` (supply 1000 to account 0) followed by account 1 approving
spender 2 for 100, the call `transfer_from(1, 3, 50)` by caller 2 returns
`Err(InsufficientBalance)` (account 1 holds no balance), yet the allowance
entry `(1, 2)` has been decremented from 100 to 50: the error return does
not leave the allowances mapping identical to its pre-call value. -/
theorem C2_atomicity_failing_input :
    (transfer_from (approve ((new (0 : Nat) "" "" 1000).1) 1 2 100).state 2 1 3 50).result
      = Except.error Error.InsufficientBalance ∧
    allowance (approve ((new (0 : Nat) "" "" 1000).1) 1 2 100).state 1 2 = 100 ∧
    allowance (transfer_from (approve ((new (0 : Nat) "" "" 1000).1) 1 2 100).state 2 1 3 50).state
      1 2 = 50 :=
  ⟨rfl, rfl, rfl⟩

/-- Claim C6: for every state, caller (owner), spender and value, and
regardless of the prior allowance, `approve(spender, value)` sets
`allowances[(owner, spender)]` to exactly `value`, emits an `Approval`
event with that owner, spender and value, and returns success. -/
theorem C6_approve_overwrite {A : Type} [DecidableEq A]
    (s : Erc20 A) (caller spender : A) (value : Nat) :
    (approve s caller spender value).result = Except.ok () ∧
    allowance (approve s caller spender value).state caller spender = value ∧
    (approve s caller spender value).events = [Event.Approval caller spender value] := by
  refine ⟨rfl, ?_, rfl⟩
  simp [approve, allowance, Mapping.get_insert_self]

/-- Claim C8: for every caller, name, symbol and total_supply,
`new(name, symbol, total_supply)` produces a state whose balances mapping
holds the single entry crediting the caller with `total_supply` (so
`balance_of(caller)` returns it), whose `total_supply` field equals that
value, and whose allowances mapping is empty; it emits exactly one
`Transfer` event with `from = None`, `to = Some(caller)` and that value.
It cannot fail: the constructor returns the state directly, with no error
path in its type. -/
theorem C8_construction {A : Type} [DecidableEq A]
    (caller : A) (name symbol : String) (ts : Nat) :
    (new caller name symbol ts).1.balances.entries = [(caller, ts)] ∧
    balance_of (new caller name symbol ts).1 caller = ts ∧
    total_supply (new caller name symbol ts).1 = ts ∧
    (new caller name symbol ts).1.allowances.entries = [] ∧
    (new caller name symbol ts).2 = [Event.Transfer none (some caller) ts] := by
  refine ⟨rfl, ?_, rfl, rfl, rfl⟩
  simp [new, balance_of, Mapping.get_insert_self]

/-- Claim C3: for every state, `from`, `to` and value, `_transfer(from, to,
value)` fails with `InsufficientBalance` and changes no state (and emits no
event) when `value > balances[from]`; otherwise it returns success, performs
the write `balances[from] = balance_from - value` followed by the write
`balances[to] = balances[to] + value` (both right-hand sides read before
either write, as in the source), and emits a `Transfer` event with
`from = Some(from)`, `to = Some(to)` and the value.  The post-state reads
are stated for every account: the later `to` write wins when `from = to`. -/
theorem C3_transfer_primitive {A : Type} [DecidableEq A]
    (s : Erc20 A) (fr dst : A) (value : Nat) :
    (value > balance_of s fr →
      _transfer s fr dst value = ⟨Except.error Error.InsufficientBalance, s, []⟩) ∧
    (value ≤ balance_of s fr →
      (_transfer s fr dst value).result = Except.ok () ∧
      (∀ k : A, balance_of (_transfer s fr dst value).state k =
        if k = dst then balance_of s dst + value
        else if k = fr then balance_of s fr - value
        else balance_of s k) ∧
      (_transfer s fr dst value).events = [Event.Transfer (some fr) (some dst) value]) := by
  constructor
  · intro h
    simp only [_transfer]
    rw [if_pos h]
  · intro h
    have h' : ¬ value > balance_of s fr := not_lt.mpr h
    refine ⟨?_, ?_, ?_⟩
    · simp only [_transfer]
      rw [if_neg h']
    · intro k
      simp only [_transfer]
      rw [if_neg h']
      by_cases hk : k = dst
      · subst hk
        simp [balance_of, Mapping.get_insert_self]
      · by_cases hk2 : k = fr
        · subst hk2
          simp [balance_of, Mapping.get_insert_ne _ _ _ _ hk, Mapping.get_insert_self, hk]
        · simp [balance_of, Mapping.get_insert_ne _ _ _ _ hk,
            Mapping.get_insert_ne _ _ _ _ hk2, hk, hk2]
    · simp only [_transfer]
      rw [if_neg h']

/-- Concrete instance of `C3_transfer_primitive`: with 1000 credited to
account 0, `_transfer(0, 1, 2000)` fails leaving the state unchanged, and
`_transfer(0, 1, 100)` succeeds. -/
theorem C3_witness :
    _transfer ((new (0 : Nat) "" "" 1000).1) 0 1 2000
      = ⟨Except.error Error.InsufficientBalance, (new (0 : Nat) "" "" 1000).1, []⟩ ∧
    (_transfer ((new (0 : Nat) "" "" 1000).1) 0 1 100).result = Except.ok () :=
  ⟨(C3_transfer_primitive ((new (0 : Nat) "" "" 1000).1) 0 1 2000).1 (by decide),
   ((C3_transfer_primitive ((new (0 : Nat) "" "" 1000).1) 0 1 100).2 (by decide)).1⟩

/-- Claim C4: for every state, caller (spender), `from`, `to` and value,
`transfer_from(from, to, value)` fails with `InsufficientAllowance` and
changes no state (and emits nothing) when `allowances[(from, spender)] <
value`; otherwise it decrements exactly that allowance entry by `value`
(exact subtraction — the check rules out underflow — and every other
allowance entry is untouched) and then performs the internal transfer of
`value` from `from` to `to` on the decremented state. -/
theorem C4_transfer_from {A : Type} [DecidableEq A]
    (s : Erc20 A) (caller fr dst : A) (value : Nat) :
    (allowance s fr caller < value →
      transfer_from s caller fr dst value
        = ⟨Except.error Error.InsufficientAllowance, s, []⟩) ∧
    (value ≤ allowance s fr caller →
      transfer_from s caller fr dst value
        = _transfer
            { s with allowances :=
                s.allowances.insert (fr, caller) (allowance s fr caller - value) }
            fr dst value ∧
      allowance
          { s with allowances :=
              s.allowances.insert (fr, caller) (allowance s fr caller - value) }
          fr caller = allowance s fr caller - value ∧
      value + (allowance s fr caller - value) = allowance s fr caller ∧
      (∀ o sp : A, (o, sp) ≠ (fr, caller) →
        allowance
            { s with allowances :=
                s.allowances.insert (fr, caller) (allowance s fr caller - value) }
            o sp = allowance s o sp)) := by
  constructor
  · intro h
    have h0 : (s.allowances.get (fr, caller)).getD 0 < value := h
    simp only [transfer_from]
    rw [if_pos h0]
  · intro h
    have h0 : ¬ (s.allowances.get (fr, caller)).getD 0 < value := not_lt.mpr h
    refine ⟨?_, ?_, ?_, ?_⟩
    · simp only [transfer_from]
      rw [if_neg h0]
      rfl
    · simp [allowance, Mapping.get_insert_self]
    · omega
    · intro o sp hne
      simp [allowance, Mapping.get_insert_ne _ _ _ _ hne]

/-- Concrete instance of `C4_transfer_from`: after account 1 approves
spender 2 for 100, `transfer_from(1, 3, 200)` by caller 2 fails with
`InsufficientAllowance` leaving the state unchanged, while for value 50 the
allowance entry `(1, 2)` is decremented to 50 before the internal transfer. -/
theorem C4_witness :
    transfer_from (approve ((new (0 : Nat) "" "" 1000).1) 1 2 100).state 2 1 3 200
      = ⟨Except.error Error.InsufficientAllowance,
         (approve ((new (0 : Nat) "" "" 1000).1) 1 2 100).state, []⟩ ∧
    50 + (allowance (approve ((new (0 : Nat) "" "" 1000).1) 1 2 100).state 1 2 - 50)
      = allowance (approve ((new (0 : Nat) "" "" 1000).1) 1 2 100).state 1 2 :=
  ⟨(C4_transfer_from (approve ((new (0 : Nat) "" "" 1000).1) 1 2 100).state 2 1 3 200).1
      (by decide),
   ((C4_transfer_from (approve ((new (0 : Nat) "" "" 1000).1) 1 2 100).state 2 1 3 50).2
      (by decide)).2.2.1⟩

/-- Claim C5 (settled against the spec-modelled `increase_allowance_checked`,
since the crate's overflow-checks build setting is not among the given
sources): for every state, caller (owner), spender and value, when
`current + value` is representable in `Balance` the call succeeds and sets
`allowances[(owner, spender)]` to `current + value`, and when the sum is
`≥ 2^128` the call is rejected (no wrapped result is ever produced). -/
theorem C5_increase_allowance_overflow {A : Type} [DecidableEq A]
    (s : Erc20 A) (caller spender : A) (value : Nat) :
    (allowance s caller spender + value < U128 →
      increase_allowance_checked s caller spender value
        = some (increase_allowance s caller spender value) ∧
      (increase_allowance s caller spender value).result = Except.ok () ∧
      allowance (increase_allowance s caller spender value).state caller spender
        = allowance s caller spender + value) ∧
    (U128 ≤ allowance s caller spender + value →
      increase_allowance_checked s caller spender value = none) := by
  constructor
  · intro h
    have h0 : (s.allowances.get (caller, spender)).getD 0 + value < U128 := h
    refine ⟨?_, rfl, ?_⟩
    · simp only [increase_allowance_checked]
      rw [if_pos h0]
    · simp [increase_allowance, allowance, Mapping.get_insert_self]
  · intro h
    have h0 : ¬ (s.allowances.get (caller, spender)).getD 0 + value < U128 := not_lt.mpr h
    simp only [increase_allowance_checked]
    rw [if_neg h0]

/-- Concrete instance of `C5_increase_allowance_overflow`: from the freshly
constructed state, increasing allowance `(0, 1)` by 5 succeeds and sets the
entry to 5, while increasing it by `2^128` is rejected. -/
theorem C5_witness :
    allowance (increase_allowance ((new (0 : Nat) "" "" 1000).1) 0 1 5).state 0 1 = 5 ∧
    increase_allowance_checked ((new (0 : Nat) "" "" 1000).1) 0 1 U128 = none :=
  ⟨((C5_increase_allowance_overflow ((new (0 : Nat) "" "" 1000).1) 0 1 5).1
      (by decide)).2.2,
   (C5_increase_allowance_overflow ((new (0 : Nat) "" "" 1000).1) 0 1 U128).2
      (by decide)⟩

/-- Claim C7: for every state, caller (owner), spender and value,
`decrease_allowance(spender, value)` fails with `InsufficientAllowance` and
changes no state when the current allowance `allowances[(owner, spender)]`
(0 if absent) is less than `value`, and otherwise returns success and sets
that allowance to the current allowance minus `value`. -/
theorem C7_decrease_allowance {A : Type} [DecidableEq A]
    (s : Erc20 A) (caller spender : A) (value : Nat) :
    (allowance s caller spender < value →
      decrease_allowance s caller spender value
        = ⟨Except.error Error.InsufficientAllowance, s, []⟩) ∧
    (value ≤ allowance s caller spender →
      (decrease_allowance s caller spender value).result = Except.ok () ∧
      allowance (decrease_allowance s caller spender value).state caller spender
        = allowance s caller spender - value) := by
  constructor
  · intro h
    have h0 : (s.allowances.get (caller, spender)).getD 0 < value := h
    simp only [decrease_allowance]
    rw [if_pos h0]
  · intro h
    have h0 : ¬ (s.allowances.get (caller, spender)).getD 0 < value := not_lt.mpr h
    constructor
    · simp only [decrease_allowance]
      rw [if_neg h0]
    · simp only [decrease_allowance]
      rw [if_neg h0]
      simp [allowance, Mapping.get_insert_self]

/-- Concrete instance of `C7_decrease_allowance`: with allowance `(1, 2)`
set to 100, decreasing it by 200 fails leaving the state unchanged, and
decreasing it by 30 succeeds leaving 70. -/
theorem C7_witness :
    decrease_allowance (approve ((new (0 : Nat) "" "" 1000).1) 1 2 100).state 1 2 200
      = ⟨Except.error Error.InsufficientAllowance,
         (approve ((new (0 : Nat) "" "" 1000).1) 1 2 100).state, []⟩ ∧
    allowance
        (decrease_allowance (approve ((new (0 : Nat) "" "" 1000).1) 1 2 100).state 1 2 30).state
        1 2
      = allowance (approve ((new (0 : Nat) "" "" 1000).1) 1 2 100).state 1 2 - 30 :=
  ⟨(C7_decrease_allowance (approve ((new (0 : Nat) "" "" 1000).1) 1 2 100).state 1 2 200).1
      (by decide),
   ((C7_decrease_allowance (approve ((new (0 : Nat) "" "" 1000).1) 1 2 100).state 1 2 30).2
      (by decide)).2⟩

/-- Claim C9 (implicit self-transfer edge case): for every state, caller `c`
and value `v` with `v ≤ balances[c]`, `transfer(c, v)` called by `c` (so
destination = caller) returns success and leaves `balances[c]` equal to its
prior value plus `v` — the destination write, computed from the balance read
before the source debit, overwrites the debit — increasing the sum of all
balances entries by `v` while `total_supply` is unchanged. -/
theorem C9_self_transfer {A : Type} [DecidableEq A]
    (s : Erc20 A) (caller : A) (value : Nat) (h : value ≤ balance_of s caller) :
    (transfer s caller caller value).result = Except.ok () ∧
    balance_of (transfer s caller caller value).state caller
      = balance_of s caller + value ∧
    Mapping.sum (transfer s caller caller value).state.balances
      = Mapping.sum s.balances + value ∧
    total_supply (transfer s caller caller value).state = total_supply s := by
  have h' : ¬ value > balance_of s caller := not_lt.mpr h
  refine ⟨?_, ?_, ?_, ?_⟩
  · simp only [transfer, _transfer]
    rw [if_neg h']
  · simp only [transfer, _transfer]
    rw [if_neg h']
    simp [balance_of, Mapping.get_insert_self]
  · simp only [transfer, _transfer]
    rw [if_neg h']
    show Mapping.sum
        ((s.balances.insert caller (balance_of s caller - value)).insert caller
          (balance_of s caller + value))
      = Mapping.sum s.balances + value
    have e1 := Mapping.sum_insert s.balances caller (balance_of s caller - value)
    have e2 := Mapping.sum_insert (s.balances.insert caller (balance_of s caller - value))
      caller (balance_of s caller + value)
    have e3 : ((s.balances.insert caller (balance_of s caller - value)).get caller).getD 0
        = balance_of s caller - value := by
      rw [Mapping.get_insert_self]
      rfl
    have e4 : (s.balances.get caller).getD 0 = balance_of s caller := rfl
    have e5 := Mapping.getD_le_sum s.balances caller
    omega
  · simp only [transfer, _transfer]
    rw [if_neg h']
    rfl

/-- Concrete instance of `C9_self_transfer`: account 0 holding 1000
self-transfers 100; the call succeeds, its balance becomes 1100, the sum of
balances becomes 1100, and `total_supply` stays 1000. -/
theorem C9_witness :
    (transfer ((new (0 : Nat) "" "" 1000).1) 0 0 100).result = Except.ok () ∧
    balance_of (transfer ((new (0 : Nat) "" "" 1000).1) 0 0 100).state 0
      = balance_of ((new (0 : Nat) "" "" 1000).1) 0 + 100 ∧
    Mapping.sum (transfer ((new (0 : Nat) "" "" 1000).1) 0 0 100).state.balances
      = Mapping.sum ((new (0 : Nat) "" "" 1000).1).balances + 100 ∧
    total_supply (transfer ((new (0 : Nat) "" "" 1000).1) 0 0 100).state
      = total_supply ((new (0 : Nat) "" "" 1000).1) :=
  C9_self_transfer ((new (0 : Nat) "" "" 1000).1) 0 100 (by decide)

/-- Claim C10 (implicit frame conditions): for every state and arguments,
`transfer` and `_transfer` never modify the allowances mapping,
`total_supply`, `name` or `symbol`; `approve`, `increase_allowance` and
`decrease_allowance` never modify the balances mapping or `total_supply`,
and each touches only the single allowances entry keyed by
`(caller, spender)`; and no public operation (`transfer_from` included)
ever modifies `name` or `symbol`. -/
theorem C10_frame {A : Type} [DecidableEq A]
    (s : Erc20 A) (caller fr dst spender : A) (value : Nat) :
    ((_transfer s fr dst value).state.allowances = s.allowances ∧
     (_transfer s fr dst value).state.total_supply = s.total_supply ∧
     (_transfer s fr dst value).state.name = s.name ∧
     (_transfer s fr dst value).state.symbol = s.symbol) ∧
    ((transfer s caller dst value).state.allowances = s.allowances ∧
     (transfer s caller dst value).state.total_supply = s.total_supply ∧
     (transfer s caller dst value).state.name = s.name ∧
     (transfer s caller dst value).state.symbol = s.symbol) ∧
    ((approve s caller spender value).state.balances = s.balances ∧
     (approve s caller spender value).state.total_supply = s.total_supply ∧
     (∀ o sp : A, (o, sp) ≠ (caller, spender) →
       allowance (approve s caller spender value).state o sp = allowance s o sp)) ∧
    ((increase_allowance s caller spender value).state.balances = s.balances ∧
     (increase_allowance s caller spender value).state.total_supply = s.total_supply ∧
     (∀ o sp : A, (o, sp) ≠ (caller, spender) →
       allowance (increase_allowance s caller spender value).state o sp
         = allowance s o sp)) ∧
    ((decrease_allowance s caller spender value).state.balances = s.balances ∧
     (decrease_allowance s caller spender value).state.total_supply = s.total_supply ∧
     (∀ o sp : A, (o, sp) ≠ (caller, spender) →
       allowance (decrease_allowance s caller spender value).state o sp
         = allowance s o sp)) ∧
    ((approve s caller spender value).state.name = s.name ∧
     (approve s caller spender value).state.symbol = s.symbol ∧
     (increase_allowance s caller spender value).state.name = s.name ∧
     (increase_allowance s caller spender value).state.symbol = s.symbol ∧
     (decrease_allowance s caller spender value).state.name = s.name ∧
     (decrease_allowance s caller spender value).state.symbol = s.symbol ∧
     (transfer_from s caller fr dst value).state.name = s.name ∧
     (transfer_from s caller fr dst value).state.symbol = s.symbol) := by
  refine ⟨⟨?_, ?_, ?_, ?_⟩, ⟨?_, ?_, ?_, ?_⟩, ⟨?_, ?_, ?_⟩, ⟨?_, ?_, ?_⟩, ⟨?_, ?_, ?_⟩,
    ?_, ?_, ?_, ?_, ?_, ?_, ?_, ?_⟩
  case _ => by_cases h : value > balance_of s fr <;> simp [_transfer, h]
  case _ => by_cases h : value > balance_of s fr <;> simp [_transfer, h]
  case _ => by_cases h : value > balance_of s fr <;> simp [_transfer, h]
  case _ => by_cases h : value > balance_of s fr <;> simp [_transfer, h]
  case _ => by_cases h : value > balance_of s caller <;> simp [transfer, _transfer, h]
  case _ => by_cases h : value > balance_of s caller <;> simp [transfer, _transfer, h]
  case _ => by_cases h : value > balance_of s caller <;> simp [transfer, _transfer, h]
  case _ => by_cases h : value > balance_of s caller <;> simp [transfer, _transfer, h]
  case _ => rfl
  case _ => rfl
  case _ =>
    intro o sp hne
    simp [approve, allowance, Mapping.get_insert_ne _ _ _ _ hne]
  case _ => rfl
  case _ => rfl
  case _ =>
    intro o sp hne
    simp [increase_allowance, allowance, Mapping.get_insert_ne _ _ _ _ hne]
  case _ =>
    by_cases h : (s.allowances.get (caller, spender)).getD 0 < value <;>
      simp [decrease_allowance, h]
  case _ =>
    by_cases h : (s.allowances.get (caller, spender)).getD 0 < value <;>
      simp [decrease_allowance, h]
  case _ =>
    intro o sp hne
    by_cases h : (s.allowances.get (caller, spender)).getD 0 < value <;>
      simp [decrease_allowance, h, allowance, Mapping.get_insert_ne _ _ _ _ hne]
  case _ => rfl
  case _ => rfl
  case _ => rfl
  case _ => rfl
  case _ =>
    by_cases h : (s.allowances.get (caller, spender)).getD 0 < value <;>
      simp [decrease_allowance, h]
  case _ =>
    by_cases h : (s.allowances.get (caller, spender)).getD 0 < value <;>
      simp [decrease_allowance, h]
  case _ =>
    by_cases h : (s.allowances.get (fr, caller)).getD 0 < value
    · simp [transfer_from, h]
    · by_cases h2 : value >
        balance_of { s with allowances :=
          s.allowances.insert (fr, caller) ((s.allowances.get (fr, caller)).getD 0 - value) } fr <;>
        simp [transfer_from, _transfer, h, h2]
  case _ =>
    by_cases h : (s.allowances.get (fr, caller)).getD 0 < value
    · simp [transfer_from, h]
    · by_cases h2 : value >
        balance_of { s with allowances :=
          s.allowances.insert (fr, caller) ((s.allowances.get (fr, caller)).getD 0 - value) } fr <;>
        simp [transfer_from, _transfer, h, h2]

/-- Concrete instance of `C10_frame`: a transfer leaves the allowances
mapping unchanged, and an approve of entry `(1, 2)` leaves the unrelated
allowance entry `(3, 4)` unchanged. -/
theorem C10_witness :
    (_transfer ((new (0 : Nat) "" "" 1000).1) 0 1 100).state.allowances
      = ((new (0 : Nat) "" "" 1000).1).allowances ∧
    allowance (approve ((new (0 : Nat) "" "" 1000).1) 1 2 100).state 3 4
      = allowance ((new (0 : Nat) "" "" 1000).1) 3 4 :=
  ⟨(C10_frame ((new (0 : Nat) "" "" 1000).1) 0 0 1 2 100).1.1,
   (C10_frame ((new (0 : Nat) "" "" 1000).1) 1 0 1 2 100).2.2.1.2.2 3 4 (by decide)⟩

end Erc20Spec
